import Mathlib

/-
  Verification of the fatigue-detection-system repository
  (wlgs/fatigue-detection-system).

  Shallow embedding of the Fatigue Scoring & Rest-Cycle Engine:
  - modules/DriverState.py        -> DriverState, initDriverState
  - modules/DriverSimulator.py    -> characteristicBiases, updateMetric,
                                     fatigueFactor, simulatePhysiological,
                                     resetToNormalState
  - modules/BiometricFatigueDetector.py -> heartRateState .. blinkRateState,
                                     getBiometricStates, stateWeights,
                                     fatigueCpdEntry, detectFatigue
  - modules/FatigueEvaluator.py   -> weatherCpd, trafficCpd, roadCpd, timeCpd,
                                     evaluateFatigue
  - sim.py (RestRecommendationSystem) -> SimState, initSimState, runTick

  Machine floats are embedded as exact rationals.  The random noise drawn by
  random.uniform in DriverSimulator._update_metric is an explicit Noise
  parameter; the random redraws of EnvironmentSimulator are an explicit
  EnvDraw parameter (any enum value is in the support of the redraw, and
  keeping the current value is also a possible outcome, so an arbitrary
  parameter soundly and completely models the nondeterminism).

  The pgmpy exact-inference queries are embedded by their mathematical
  meaning: every query in this code base observes all parents of the queried
  node, so VariableElimination returns exactly the (already normalized)
  conditional-probability-table column selected by the evidence.  The CPT
  columns themselves are built by _calculate_fatigue_probabilities /
  setup_bayesian_network from explicit weighted sums, which are embedded
  verbatim below.
-/

namespace FatigueSim

/-! ## Environment and configuration enumerations -/

inductive Weather | clear | rain | fog | snow | sunny
deriving DecidableEq

inductive Traffic | low | medium | high
deriving DecidableEq

inductive Road | highway | city | rural
deriving DecidableEq

inductive TimeOfDay | day | night
deriving DecidableEq

/-- Environment scenario names of DriverState.py (ScenarioType). -/
inductive ScenarioKind | normal | bad | worst
deriving DecidableEq

/-- Driver characteristic names of DriverSimulator.py (DriverCharacteristic). -/
inductive Characteristic
  | normal | low_heart_rate | fast_blinker | eyes_wide_open | sweaty_palms | drowsy
deriving DecidableEq

/-! ## DriverState (modules/DriverState.py)

`current_rest_loss` and `last_drive_tick_time` are set dynamically by
sim.py's run_tick; they are ordinary fields here, initialized to 0. -/

structure DriverState where
  rest_points : ℚ
  last_rest_tick : ℤ
  current_speed : ℚ
  last_drive_tick_time : ℤ
  current_rest_loss : ℚ
  weather_condition : Weather
  traffic_density : Traffic
  time_of_day : TimeOfDay
  road_type : Road
  heart_rate : ℚ
  hrv : ℚ
  eda : ℚ
  perclos : ℚ
  blink_duration : ℚ
  blink_rate : ℚ
deriving DecidableEq

/-- DriverState.__init__ plus __post_init__'s environment_scenarios table. -/
def initDriverState (sc : ScenarioKind) : DriverState where
  rest_points := 100
  last_rest_tick := 0
  current_speed := 0
  last_drive_tick_time := 0
  current_rest_loss := 0
  weather_condition := match sc with
    | .normal => .clear
    | .bad => .rain
    | .worst => .snow
  traffic_density := match sc with
    | .normal => .low
    | .bad => .high
    | .worst => .high
  time_of_day := match sc with
    | .normal => .day
    | .bad => .day
    | .worst => .night
  road_type := match sc with
    | .normal => .highway
    | .bad => .city
    | .worst => .rural
  heart_rate := 75
  hrv := 50
  eda := 5
  perclos := 3/20
  blink_duration := 200
  blink_rate := 15

/-! ## DriverSimulator (modules/DriverSimulator.py) -/

/-- One entry of the characteristic_biases table. -/
structure SignalBias where
  base_offset : ℚ
  fatigue_resistance : ℚ
deriving DecidableEq

/-- The per-signal bias rows of a characteristic_biases entry. -/
structure DriverBiases where
  heart_rate : SignalBias
  hrv : SignalBias
  eda : SignalBias
  perclos : SignalBias
  blink_duration : SignalBias
  blink_rate : SignalBias
deriving DecidableEq

/-- DriverSimulator.characteristic_biases (order: heart_rate, hrv, eda,
perclos, blink_duration, blink_rate). -/
def characteristicBiases : Characteristic → DriverBiases
  | .normal =>
      ⟨⟨0, 1⟩, ⟨0, 1⟩, ⟨0, 1⟩, ⟨0, 1⟩, ⟨0, 1⟩, ⟨0, 1⟩⟩
  | .low_heart_rate =>
      ⟨⟨-30, 10⟩, ⟨5, 6/5⟩, ⟨0, 1⟩, ⟨0, 1⟩, ⟨0, 1⟩, ⟨0, 1⟩⟩
  | .fast_blinker =>
      ⟨⟨0, 1⟩, ⟨0, 1⟩, ⟨0, 1⟩, ⟨1/20, 11/10⟩, ⟨-50, 1⟩, ⟨5, 9/10⟩⟩
  | .eyes_wide_open =>
      ⟨⟨0, 1⟩, ⟨0, 1⟩, ⟨0, 1⟩, ⟨-1/20, 3⟩, ⟨-30, 3⟩, ⟨-3, 3⟩⟩
  | .sweaty_palms =>
      ⟨⟨5, 9/10⟩, ⟨-5, 9/10⟩, ⟨2, 4/5⟩, ⟨0, 1⟩, ⟨0, 1⟩, ⟨0, 1⟩⟩
  | .drowsy =>
      ⟨⟨-5, 4/5⟩, ⟨-5, 4/5⟩, ⟨-1, 9/10⟩, ⟨1/10, 7/10⟩, ⟨50, 7/10⟩, ⟨3, 4/5⟩⟩

/-- The noise drawn by random.uniform(-variance, variance) for each of the six
metrics during one simulate_physiological call.  It is an arbitrary rational
parameter: the clamping in _update_metric makes the bound invariants hold for
any noise whatsoever, so no [-variance, variance] hypothesis is needed for the
theorems below. -/
structure Noise where
  heart_rate : ℚ
  hrv : ℚ
  eda : ℚ
  perclos : ℚ
  blink_duration : ℚ
  blink_rate : ℚ

/-- Zero noise (random.uniform returning 0 each time). -/
def noNoise : Noise := ⟨0, 0, 0, 0, 0, 0⟩

/-- Python's builtin min on two rationals, written with an explicit if so the
kernel can evaluate it. -/
def rmin (a b : ℚ) : ℚ := if a ≤ b then a else b

/-- Python's builtin max on two rationals. -/
def rmax (a b : ℚ) : ℚ := if b ≤ a then a else b

/-- DriverSimulator._update_metric: add the noise, move 5% of the way toward
the target, clamp to [lo, hi]. -/
def updateMetric (current noise target lo hi : ℚ) : ℚ :=
  rmax lo (rmin hi ((current + noise) * (19/20) + target * (1/20)))

/-- The fatigue factor of simulate_physiological:
(100 - fatigue_bias - energy_level) / 100 with fatigue_bias = 25.
Note: the source does NOT clamp this quantity. -/
def fatigueFactor (energy : ℚ) : ℚ := (100 - 25 - energy) / 100

/-- DriverSimulator.simulate_physiological: for each metric, the target is a
linear interpolation between the profile-offset rested and fatigued values,
driven by fatigueFactor / fatigue_resistance; then _update_metric. -/
def simulatePhysiological (b : DriverBiases) (d : DriverState) (energy : ℚ)
    (n : Noise) : DriverState :=
  let f := fatigueFactor energy
  { d with
    heart_rate := updateMetric d.heart_rate n.heart_rate
      ((80 + b.heart_rate.base_offset) -
        ((80 + b.heart_rate.base_offset) - (55 + b.heart_rate.base_offset)) *
          (f / b.heart_rate.fatigue_resistance)) 45 100
    hrv := updateMetric d.hrv n.hrv
      ((50 + b.hrv.base_offset) -
        ((50 + b.hrv.base_offset) - (25 + b.hrv.base_offset)) *
          (f / b.hrv.fatigue_resistance)) 15 70
    eda := updateMetric d.eda n.eda
      ((7 + b.eda.base_offset) -
        ((7 + b.eda.base_offset) - (2 + b.eda.base_offset)) *
          (f / b.eda.fatigue_resistance)) 1 12
    perclos := updateMetric d.perclos n.perclos
      ((3/20 + b.perclos.base_offset) +
        ((2/5 + b.perclos.base_offset) - (3/20 + b.perclos.base_offset)) *
          (f / b.perclos.fatigue_resistance)) (1/10) (1/2)
    blink_duration := updateMetric d.blink_duration n.blink_duration
      ((200 + b.blink_duration.base_offset) +
        ((500 + b.blink_duration.base_offset) - (200 + b.blink_duration.base_offset)) *
          (f / b.blink_duration.fatigue_resistance)) 100 600
    blink_rate := updateMetric d.blink_rate n.blink_rate
      ((12 + b.blink_rate.base_offset) +
        ((27 + b.blink_rate.base_offset) - (12 + b.blink_rate.base_offset)) *
          (f / b.blink_rate.fatigue_resistance)) 8 30 }

/-- DriverSimulator._reset_to_normal_state: snap the six biometrics to
profile-offset rested values.  The source applies NO clamping here. -/
def resetToNormalState (b : DriverBiases) (d : DriverState) : DriverState :=
  { d with
    heart_rate := 75 + b.heart_rate.base_offset
    hrv := 50 + b.hrv.base_offset
    eda := 6 + b.eda.base_offset
    perclos := 1/10 + b.perclos.base_offset
    blink_duration := 200 + b.blink_duration.base_offset
    blink_rate := 12 + b.blink_rate.base_offset }

/-! ## BiometricFatigueDetector (modules/BiometricFatigueDetector.py) -/

/-- _get_biometric_states, heart rate branch. -/
def heartRateState (hr : ℚ) : ℕ :=
  if 70 ≤ hr ∧ hr ≤ 80 then 0
  else if 65 ≤ hr ∧ hr < 70 then 1
  else if 60 ≤ hr ∧ hr < 65 then 2
  else 3

/-- _get_biometric_states, HRV branch. -/
def hrvState (v : ℚ) : ℕ :=
  if 45 ≤ v ∧ v ≤ 55 then 0
  else if 35 ≤ v ∧ v < 45 then 1
  else if 25 ≤ v ∧ v < 35 then 2
  else 3

/-- _get_biometric_states, EDA branch. -/
def edaState (v : ℚ) : ℕ :=
  if 6 ≤ v ∧ v ≤ 8 then 0
  else if 4 ≤ v ∧ v < 6 then 1
  else if 2 ≤ v ∧ v < 4 then 2
  else 3

/-- _get_biometric_states, PERCLOS branch. -/
def perclosState (v : ℚ) : ℕ :=
  if 1/10 ≤ v ∧ v ≤ 1/5 then 0
  else if 1/5 < v ∧ v ≤ 3/10 then 1
  else if 3/10 < v ∧ v ≤ 2/5 then 2
  else 3

/-- _get_biometric_states, blink duration branch. -/
def blinkDurationState (v : ℚ) : ℕ :=
  if 150 ≤ v ∧ v ≤ 250 then 0
  else if 250 < v ∧ v ≤ 350 then 1
  else if 350 < v ∧ v ≤ 450 then 2
  else 3

/-- _get_biometric_states, blink rate branch. -/
def blinkRateState (v : ℚ) : ℕ :=
  if 10 ≤ v ∧ v ≤ 14 then 0
  else if 14 < v ∧ v ≤ 18 then 1
  else if 18 < v ∧ v ≤ 22 then 2
  else 3

/-- _get_biometric_states as a map from signal index to severity bin, in the
source's evidence order HeartRate, HRV, EDA, PERCLOS, BlinkDuration,
BlinkRate. -/
def getBiometricStates (d : DriverState) : Fin 6 → ℕ := fun j =>
  if j = 0 then heartRateState d.heart_rate
  else if j = 1 then hrvState d.hrv
  else if j = 2 then edaState d.eda
  else if j = 3 then perclosState d.perclos
  else if j = 4 then blinkDurationState d.blink_duration
  else blinkRateState d.blink_rate

/-- The per-bin severity weights state_weights = [0.1, 0.4, 0.7, 0.9] of
_calculate_fatigue_probabilities. -/
def stateWeights (k : ℕ) : ℚ :=
  if k = 0 then 1/10 else if k = 1 then 2/5 else if k = 2 then 7/10 else 9/10

/-- One column of the Fatigue CPT built by _calculate_fatigue_probabilities:
P(Fatigue = 1 | the six evidence states), i.e. min(1, Σ state_weight × signal
weight) with the WEIGHTS table of setup_bayesian_network (heart_rate 0.15,
hrv 0.20, eda 0.15, perclos 0.20, blink_duration 0.15, blink_rate 0.15). -/
def fatigueCpdEntry (st : Fin 6 → ℕ) : ℚ :=
  rmin 1 (stateWeights (st 0) * (3/20) + stateWeights (st 1) * (1/5) +
          stateWeights (st 2) * (3/20) + stateWeights (st 3) * (1/5) +
          stateWeights (st 4) * (3/20) + stateWeights (st 5) * (3/20))

/-- The evidence bit detect_fatigue derives from a severity bin:
`1 if prob > 0.5 else 0`, where `prob` is the integer bin index. -/
def bitOf (k : ℕ) : ℕ := if (k : ℚ) > 1/2 then 1 else 0

/-- The evidence dictionary of detect_fatigue. -/
def evidenceOf (st : Fin 6 → ℕ) : Fin 6 → ℕ := fun j => bitOf (st j)

/-- BiometricFatigueDetector.ALARM_THRESHOLD. -/
def ALARM_THRESHOLD : ℚ := 7/10

/-- P(Fatigue = 1 | evidence) returned by the first inference.query of
detect_fatigue.  All six parents of Fatigue are observed, so exact inference
returns the CPT column selected by the evidence. -/
def fatigueProbOf (d : DriverState) : ℚ :=
  fatigueCpdEntry (evidenceOf (getBiometricStates d))

/-- `alarm_evidence['Fatigue'] = 1 if fatigue_prob > 0.5 else 0`. -/
def fatigueEvidenceOf (d : DriverState) : ℕ :=
  if fatigueProbOf d > 1/2 then 1 else 0

/-- P(Alarm = 1 | evidence) of the second inference.query: Alarm's only
parent Fatigue is observed, so the result is the alarm CPT column
[0.1, 0.9] selected by the Fatigue evidence. -/
def alarmProbOf (d : DriverState) : ℚ :=
  if fatigueEvidenceOf d = 1 then 9/10 else 1/10

/-- BiometricFatigueDetector.detect_fatigue:
(fatigue_level, alarm_probability, alarm_triggered). -/
def detectFatigue (d : DriverState) : ℚ × ℚ × Bool :=
  (fatigueProbOf d, alarmProbOf d, decide (alarmProbOf d > ALARM_THRESHOLD))

/-! ## FatigueEvaluator (modules/FatigueEvaluator.py) -/

/-- cpd_weather column, indexed by the evidence map of evaluate_fatigue. -/
def weatherCpd : Weather → ℚ
  | .clear => 0
  | .rain => 1/5
  | .fog => 7/20
  | .snow => 3/10
  | .sunny => 3/20

/-- cpd_traffic column. -/
def trafficCpd : Traffic → ℚ
  | .low => 1/10
  | .medium => 3/10
  | .high => 3/5

/-- cpd_road_type column. -/
def roadCpd : Road → ℚ
  | .highway => 1/10
  | .city => 3/10
  | .rural => 3/5

/-- cpd_time column (day, night). -/
def timeCpd : TimeOfDay → ℚ
  | .day => 1/5
  | .night => 4/5

/-- FatigueEvaluator.evaluate_fatigue: all five parents of Fatigue are
observed, so the inference returns the CPT column built in
setup_bayesian_network: min(1, Σ cpd value × weight) with weights
time_of_day 0.25, time_since_rest 0.3, weather 0.15, traffic 0.15,
road 0.15; the TimeSinceRest evidence is `1 if hours > 2 else 0` with cpd
column [0.2, 0.8]. -/
def evaluateFatigue (d : DriverState) (timeSinceRestHours : ℚ) : ℚ :=
  rmin 1 (timeCpd d.time_of_day * (1/4) +
          (if timeSinceRestHours > 2 then (4:ℚ)/5 else 1/5) * (3/10) +
          weatherCpd d.weather_condition * (3/20) +
          trafficCpd d.traffic_density * (3/20) +
          roadCpd d.road_type * (3/20))

/-! ## RestRecommendationSystem (sim.py) -/

/-- The values returned this tick by simulate_weather / simulate_traffic /
simulate_road_type.  Each of those functions either keeps the current value or
redraws from a full-support categorical distribution, so every enum value is a
possible outcome; the draw is passed in explicitly. -/
structure EnvDraw where
  weather : Weather
  traffic : Traffic
  road : Road

/-- A fixed draw used for concrete runs with simulators_running = false,
where the draw is never consulted. -/
def anyDraw : EnvDraw := ⟨.clear, .low, .highway⟩

/-- EnvironmentSimulator.simulate_time_of_day: deterministic flip every 288
ticks. -/
def simulateTimeOfDay (t : TimeOfDay) (tick : ℤ) : TimeOfDay :=
  if tick % 288 = 0 then (match t with | .day => .night | .night => .day) else t

/-- collections.deque(maxlen) append: evict the oldest element when full. -/
def dequeAppend {α : Type} (maxlen : ℕ) (xs : List α) (x : α) : List α :=
  if maxlen ≤ xs.length then xs.tail ++ [x] else xs ++ [x]

/-- The mutable state of RestRecommendationSystem that run_tick touches,
together with its construction-time configuration. -/
structure SimState where
  driver : DriverState
  characteristic : Characteristic
  rest_threshold : ℚ
  valid_alarm_threshold : ℚ
  simulators_running : Bool
  tick_count : ℤ
  current_alarm_state : Bool
  alarm_probability : ℚ
  valid_alarms_count : ℕ
  total_alarms_count : ℕ
  missed_alarms_count : ℕ
  rest_points_history : List ℚ
  alarm_history : List (ℚ × ℕ × ℕ × ℕ)
deriving DecidableEq

/-- RestRecommendationSystem.__init__ (rest_threshold = 0,
valid_alarm_threshold = 20.0, histories prefilled with 200 entries). -/
def initSimState (sc : ScenarioKind) (ch : Characteristic) : SimState where
  driver := initDriverState sc
  characteristic := ch
  rest_threshold := 0
  valid_alarm_threshold := 20
  simulators_running := false
  tick_count := 0
  current_alarm_state := false
  alarm_probability := 0
  valid_alarms_count := 0
  total_alarms_count := 0
  missed_alarms_count := 0
  rest_points_history := List.replicate 200 100
  alarm_history := List.replicate 200 (0, 0, 0, 0)

/-- The elapsed-drive-hours expression of run_tick:
(tick_count - last_rest_tick) * 5 / 60. -/
def tickHours (s : SimState) : ℚ :=
  (((s.tick_count : ℚ)) - ((s.driver.last_rest_tick : ℚ))) * 5 / 60

/-- The rest deduction of run_tick: fatigue_level * 2.5, where fatigue_level
is the FatigueEvaluator output on the pre-tick driver state. -/
def tickRestLoss (s : SimState) : ℚ :=
  evaluateFatigue s.driver (tickHours s) * (5/2)

/-- The driver state after run_tick's simulate_physiological call
(DriverSimulator mutates driver_state in place; the energy level passed is the
current rest_points). -/
def postPhysioDriver (s : SimState) (n : Noise) : DriverState :=
  simulatePhysiological (characteristicBiases s.characteristic)
    s.driver s.driver.rest_points n

/-- The driver state after the optional environment-simulator block of
run_tick (executed only when simulators_running). -/
def postEnvDriver (s : SimState) (n : Noise) (ed : EnvDraw) : DriverState :=
  if s.simulators_running then
    { postPhysioDriver s n with
      weather_condition := ed.weather
      traffic_density := ed.traffic
      road_type := ed.road
      time_of_day := simulateTimeOfDay (postPhysioDriver s n).time_of_day s.tick_count }
  else postPhysioDriver s n

/-- run_tick's alarm_triggered, from detect_fatigue on the updated driver. -/
def tickAlarmTriggered (s : SimState) (n : Noise) (ed : EnvDraw) : Bool :=
  (detectFatigue (postEnvDriver s n ed)).2.2

/-- _is_alarm_valid at alarm-classification time: rest_points (not yet
deducted this tick) at or below valid_alarm_threshold. -/
def tickAlarmValid (s : SimState) (n : Noise) (ed : EnvDraw) : Bool :=
  decide ((postEnvDriver s n ed).rest_points ≤ s.valid_alarm_threshold)

/-- The driver state after the rest deduction:
rest_loss = fatigue_level * 2.5 where fatigue_level is the FatigueEvaluator
output computed at the top of run_tick from the pre-tick state. -/
def postLossDriver (s : SimState) (n : Noise) (ed : EnvDraw) : DriverState :=
  { postEnvDriver s n ed with
    current_rest_loss := tickRestLoss s
    rest_points := (postEnvDriver s n ed).rest_points - tickRestLoss s }

/-- run_tick's history append for rest_points. -/
def tickRestHistory (s : SimState) (n : Noise) (ed : EnvDraw) : List ℚ :=
  dequeAppend 200 s.rest_points_history (postLossDriver s n ed).rest_points

/-- run_tick's alarm_color: _is_alarm_valid re-evaluated after the
deduction. -/
def tickAlarmColor (s : SimState) (n : Noise) (ed : EnvDraw) : ℕ × ℕ × ℕ :=
  if (postLossDriver s n ed).rest_points ≤ s.valid_alarm_threshold
  then (0, 255, 0) else (255, 0, 0)

/-- run_tick's history append for alarms. -/
def tickAlarmHistory (s : SimState) (n : Noise) (ed : EnvDraw) :
    List (ℚ × ℕ × ℕ × ℕ) :=
  dequeAppend 200 s.alarm_history
    (if tickAlarmTriggered s n ed then (1, tickAlarmColor s n ed)
     else (0, tickAlarmColor s n ed))

/-- The rest-reset branch at the end of run_tick: when the (post-deduction)
rest_points fall strictly below rest_threshold, set rest_points back to 100,
record the elapsed drive ticks, move last_rest_tick, and call
_reset_to_normal_state. -/
def postResetDriver (s : SimState) (n : Noise) (ed : EnvDraw) : DriverState :=
  if (postLossDriver s n ed).rest_points < s.rest_threshold then
    resetToNormalState (characteristicBiases s.characteristic)
      { postLossDriver s n ed with
        rest_points := 100
        last_drive_tick_time := s.tick_count - s.driver.last_rest_tick
        last_rest_tick := s.tick_count }
  else postLossDriver s n ed

/-- RestRecommendationSystem.run_tick, in source statement order:
evaluate_fatigue on the pre-tick state; simulate_physiological (in place);
optional environment transitions; detect_fatigue; alarm classification
(_is_alarm_valid is rest_points ≤ valid_alarm_threshold, evaluated before the
deduction); rest deduction; history appends (the alarm color re-evaluates
_is_alarm_valid after the deduction); rest-reset branch; tick_count += 1. -/
def runTick (s : SimState) (n : Noise) (ed : EnvDraw) : SimState :=
  { s with
    driver := postResetDriver s n ed
    tick_count := s.tick_count + 1
    current_alarm_state := tickAlarmTriggered s n ed
    alarm_probability := (detectFatigue (postEnvDriver s n ed)).2.1
    valid_alarms_count :=
      if tickAlarmTriggered s n ed && tickAlarmValid s n ed
      then s.valid_alarms_count + 1 else s.valid_alarms_count
    total_alarms_count :=
      if tickAlarmTriggered s n ed
      then s.total_alarms_count + 1 else s.total_alarms_count
    missed_alarms_count :=
      if !tickAlarmTriggered s n ed && tickAlarmValid s n ed
      then s.missed_alarms_count + 1 else s.missed_alarms_count
    rest_points_history := tickRestHistory s n ed
    alarm_history := tickAlarmHistory s n ed }

/-- The state visible if execution aborts right after the
simulate_physiological call of run_tick: DriverSimulator.simulate_physiological
mutates driver_state in place (setattr per metric), so those effects are
already committed before detect_fatigue and the counter/history/budget steps
run; nothing rolls them back on an exception in a later step. -/
def runTickAfterPhysio (s : SimState) (n : Noise) : SimState :=
  { s with driver := postPhysioDriver s n }

/-! ## Concrete states used in the theorems, and the spec-side comparator -/

/-- The system as built by `RestRecommendationSystem("normal", "normal")`. -/
def s0 : SimState := initSimState .normal .normal

/-- The initial system with the driver's rest budget set to exactly the
ground-truth threshold 20. -/
def sC2 : SimState :=
  { initSimState .normal .normal with
    driver := { initDriverState .normal with rest_points := 20 } }

/-- The initial system at tick 5 with a nearly exhausted rest budget. -/
def sC5 : SimState :=
  { initSimState .normal .normal with
    tick_count := 5
    driver := { initDriverState .normal with rest_points := 1/10 } }

/-- The baseline driver with heart rate moved into the Slightly Fatigued bin. -/
def dHr67 : DriverState := { initDriverState .normal with heart_rate := 67 }

/-- The baseline driver with heart rate moved into the Fatigued bin. -/
def dHr62 : DriverState := { initDriverState .normal with heart_rate := 62 }

/-- Modelled from the spec (§4.2): the clamped fatigue factor
`clamp01((100 - bias - energy_level)/100)` that the specification claims
simulate_physiological uses.  This is the spec-side comparator for the
refinement claim about `fatigueFactor`; the source computes the unclamped
quotient. -/
def specClampedFatigueFactor (energy : ℚ) : ℚ :=
  rmax 0 (rmin 1 ((100 - 25 - energy) / 100))

end FatigueSim

/-! ## Helper lemmas -/


namespace FatigueSim

theorem rmin_le_right (a b : ℚ) : rmin a b ≤ b := by
  unfold rmin; split_ifs <;> linarith

theorem le_rmin (a b c : ℚ) (h1 : c ≤ a) (h2 : c ≤ b) : c ≤ rmin a b := by
  unfold rmin; split_ifs <;> linarith

theorem rmin_mono_right (c x y : ℚ) (h : x ≤ y) : rmin c x ≤ rmin c y := by
  unfold rmin; split_ifs <;> linarith

theorem rmax_bounds (lo hi x : ℚ) (h : lo ≤ hi) :
    lo ≤ rmax lo (rmin hi x) ∧ rmax lo (rmin hi x) ≤ hi := by
  unfold rmax rmin
  split_ifs <;> constructor <;> linarith

theorem updateMetric_mem (c nz t lo hi : ℚ) (h : lo ≤ hi) :
    lo ≤ updateMetric c nz t lo hi ∧ updateMetric c nz t lo hi ≤ hi := by
  unfold updateMetric
  exact rmax_bounds lo hi _ h

theorem bitOf_eq (k : ℕ) : bitOf k = if k = 0 then 0 else 1 := by
  unfold bitOf
  rcases k with _ | m
  · norm_num
  · have h1 : (1:ℚ)/2 < ((m+1 : ℕ) : ℚ) := by
      have hm := Nat.cast_nonneg (α := ℚ) m
      push_cast
      linarith
    rw [if_pos h1, if_neg (by omega : ¬ (m + 1 = 0))]

theorem bitOf_mono (a b : ℕ) (h : a ≤ b) : bitOf a ≤ bitOf b := by
  rw [bitOf_eq, bitOf_eq]
  rcases Nat.eq_zero_or_pos a with ha | ha
  · simp [ha]
  · have hb : b ≠ 0 := by omega
    have ha' : a ≠ 0 := by omega
    simp [ha', hb]

theorem stateWeights_mono (a b : ℕ) (h : a ≤ b) : stateWeights a ≤ stateWeights b := by
  unfold stateWeights
  split_ifs <;> first | omega | norm_num

theorem stateWeights_lb (k : ℕ) : 1/10 ≤ stateWeights k := by
  unfold stateWeights
  split_ifs <;> norm_num

theorem stateWeights_bit_ub (k : ℕ) : stateWeights (bitOf k) ≤ 2/5 := by
  rw [bitOf_eq]
  unfold stateWeights
  split_ifs <;> first | omega | norm_num

theorem fatigueCpdEntry_mono (e1 e2 : Fin 6 → ℕ) (h : ∀ j, e1 j ≤ e2 j) :
    fatigueCpdEntry e1 ≤ fatigueCpdEntry e2 := by
  unfold fatigueCpdEntry
  apply rmin_mono_right
  have h0 := stateWeights_mono _ _ (h 0)
  have h1 := stateWeights_mono _ _ (h 1)
  have h2 := stateWeights_mono _ _ (h 2)
  have h3 := stateWeights_mono _ _ (h 3)
  have h4 := stateWeights_mono _ _ (h 4)
  have h5 := stateWeights_mono _ _ (h 5)
  linarith

theorem fatigueProbOf_ub (d : DriverState) : fatigueProbOf d ≤ 2/5 := by
  unfold fatigueProbOf fatigueCpdEntry evidenceOf
  have h0 := stateWeights_bit_ub (getBiometricStates d 0)
  have h1 := stateWeights_bit_ub (getBiometricStates d 1)
  have h2 := stateWeights_bit_ub (getBiometricStates d 2)
  have h3 := stateWeights_bit_ub (getBiometricStates d 3)
  have h4 := stateWeights_bit_ub (getBiometricStates d 4)
  have h5 := stateWeights_bit_ub (getBiometricStates d 5)
  calc rmin 1 _ ≤ _ := rmin_le_right 1 _
    _ ≤ 2/5 := by linarith

theorem fatigueProbOf_lb (d : DriverState) : 1/10 ≤ fatigueProbOf d := by
  unfold fatigueProbOf fatigueCpdEntry evidenceOf
  have h0 := stateWeights_lb (bitOf (getBiometricStates d 0))
  have h1 := stateWeights_lb (bitOf (getBiometricStates d 1))
  have h2 := stateWeights_lb (bitOf (getBiometricStates d 2))
  have h3 := stateWeights_lb (bitOf (getBiometricStates d 3))
  have h4 := stateWeights_lb (bitOf (getBiometricStates d 4))
  have h5 := stateWeights_lb (bitOf (getBiometricStates d 5))
  apply le_rmin
  · norm_num
  · linarith

theorem alarmProbOf_eq (d : DriverState) : alarmProbOf d = 1/10 := by
  unfold alarmProbOf fatigueEvidenceOf
  have h := fatigueProbOf_ub d
  have hngt : ¬ (fatigueProbOf d > 1/2) := by linarith
  rw [if_neg hngt]
  norm_num

theorem detectFatigue_alarm_false (d : DriverState) : (detectFatigue d).2.2 = false := by
  unfold detectFatigue
  simp only [alarmProbOf_eq]
  norm_num [ALARM_THRESHOLD]

theorem tickAlarmTriggered_false (s : SimState) (n : Noise) (ed : EnvDraw) :
    tickAlarmTriggered s n ed = false := detectFatigue_alarm_false _

theorem postEnvDriver_rest_points (s : SimState) (n : Noise) (ed : EnvDraw) :
    (postEnvDriver s n ed).rest_points = s.driver.rest_points := by
  unfold postEnvDriver
  split <;> rfl

end FatigueSim

/-! ## Helper lemmas about the tick and the evaluators -/

namespace FatigueSim

theorem postLossDriver_rest (s : SimState) (n : Noise) (ed : EnvDraw) :
    (postLossDriver s n ed).rest_points = s.driver.rest_points - tickRestLoss s := by
  show (postEnvDriver s n ed).rest_points - tickRestLoss s = _
  rw [postEnvDriver_rest_points]

theorem postResetDriver_reset (s : SimState) (n : Noise) (ed : EnvDraw)
    (h : (postLossDriver s n ed).rest_points < s.rest_threshold) :
    (postResetDriver s n ed).rest_points = 100 ∧
    (postResetDriver s n ed).last_rest_tick = s.tick_count := by
  unfold postResetDriver
  rw [if_pos h]
  exact ⟨rfl, rfl⟩

theorem postResetDriver_no_reset (s : SimState) (n : Noise) (ed : EnvDraw)
    (h : ¬ ((postLossDriver s n ed).rest_points < s.rest_threshold)) :
    postResetDriver s n ed = postLossDriver s n ed := by
  unfold postResetDriver
  rw [if_neg h]

theorem runTick_missed_eq (s : SimState) (n : Noise) (ed : EnvDraw) :
    (runTick s n ed).missed_alarms_count =
      if s.driver.rest_points ≤ s.valid_alarm_threshold
      then s.missed_alarms_count + 1 else s.missed_alarms_count := by
  show (if !tickAlarmTriggered s n ed && tickAlarmValid s n ed
        then s.missed_alarms_count + 1 else s.missed_alarms_count) = _
  rw [tickAlarmTriggered_false]
  unfold tickAlarmValid
  rw [postEnvDriver_rest_points]
  simp [decide_eq_true_eq]

theorem runTick_rest_loss_eq (s : SimState) (n : Noise) (ed : EnvDraw) :
    (runTick s n ed).driver.current_rest_loss = tickRestLoss s := by
  show (postResetDriver s n ed).current_rest_loss = _
  unfold postResetDriver
  split <;> rfl

theorem timeCpd_lb (t : TimeOfDay) : 1/5 ≤ timeCpd t := by
  cases t <;> norm_num [timeCpd]

theorem weatherCpd_nonneg (w : Weather) : 0 ≤ weatherCpd w := by
  cases w <;> norm_num [weatherCpd]

theorem trafficCpd_lb (t : Traffic) : 1/10 ≤ trafficCpd t := by
  cases t <;> norm_num [trafficCpd]

theorem roadCpd_lb (r : Road) : 1/10 ≤ roadCpd r := by
  cases r <;> norm_num [roadCpd]

/-- Every environment configuration yields an evaluator output of at least
0.14: the minimum over all CPT columns and the hours bit. -/
theorem evaluateFatigue_lb (d : DriverState) (h : ℚ) : 7/50 ≤ evaluateFatigue d h := by
  unfold evaluateFatigue
  have h1 := timeCpd_lb d.time_of_day
  have h2 := weatherCpd_nonneg d.weather_condition
  have h3 := trafficCpd_lb d.traffic_density
  have h4 := roadCpd_lb d.road_type
  apply le_rmin
  · norm_num
  · split_ifs <;> linarith

/-- Every tick deducts at least 0.35 from the rest budget. -/
theorem tickRestLoss_lb (s : SimState) : 7/20 ≤ tickRestLoss s := by
  unfold tickRestLoss
  have := evaluateFatigue_lb s.driver (tickHours s)
  linarith

/-- If every signal sits in its minimum-severity bin, the detector returns
its floor probability 0.1. -/
theorem fatigueProb_of_all_zero (d : DriverState)
    (hb : ∀ j : Fin 6, getBiometricStates d j = 0) :
    (detectFatigue d).1 = 1/10 := by
  show fatigueProbOf d = 1/10
  unfold fatigueProbOf
  have he : evidenceOf (getBiometricStates d) = fun _ => (0:ℕ) := by
    funext j
    show bitOf (getBiometricStates d j) = 0
    rw [hb j, bitOf_eq]
    norm_num
  rw [he]
  norm_num [fatigueCpdEntry, stateWeights, rmin]

/-- After _reset_to_normal_state, the six severity bins are all 0 as soon as
each profile-offset baseline lands in the corresponding Normal/Rested range. -/
theorem reset_all_zero_of (c : Characteristic) (d : DriverState)
    (h0 : heartRateState (75 + (characteristicBiases c).heart_rate.base_offset) = 0)
    (h1 : hrvState (50 + (characteristicBiases c).hrv.base_offset) = 0)
    (h2 : edaState (6 + (characteristicBiases c).eda.base_offset) = 0)
    (h3 : perclosState (1/10 + (characteristicBiases c).perclos.base_offset) = 0)
    (h4 : blinkDurationState (200 + (characteristicBiases c).blink_duration.base_offset) = 0)
    (h5 : blinkRateState (12 + (characteristicBiases c).blink_rate.base_offset) = 0) :
    ∀ j : Fin 6, getBiometricStates (resetToNormalState (characteristicBiases c) d) j = 0 := by
  intro j
  fin_cases j
  · exact h0
  · exact h1
  · exact h2
  · exact h3
  · exact h4
  · exact h5

end FatigueSim

/-! ## Claim theorems -/

namespace FatigueSim

/-- C1, counterexample: the claim that every biometric field stays within its
declared bound, in particular immediately after _reset_to_normal_state, is
false: for the eyes_wide_open profile the reset sets
perclos = 0.10 + (-0.05) = 0.05, strictly below the declared minimum 0.1. -/
theorem C1_counterexample :
    (resetToNormalState (characteristicBiases .eyes_wide_open)
        (initDriverState .normal)).perclos = 1/20 ∧
    ¬ (1/10 ≤ (resetToNormalState (characteristicBiases .eyes_wide_open)
        (initDriverState .normal)).perclos) := by
  norm_num [resetToNormalState, characteristicBiases, initDriverState]

/-- C1, amended: after every simulate_physiological update, for every profile,
every energy level and arbitrary noise, each of the six biometric fields lies
within its declared bound (heart_rate [45,100], hrv [15,70], eda [1,12],
perclos [0.1,0.5], blink_duration [100,600], blink_rate [8,30]), because
_update_metric clamps; _reset_to_normal_state, however, does not clamp
(see the counterexample). -/
theorem C1_tick_bounds (b : DriverBiases) (d : DriverState) (e : ℚ) (n : Noise) :
    (45 ≤ (simulatePhysiological b d e n).heart_rate ∧
      (simulatePhysiological b d e n).heart_rate ≤ 100) ∧
    (15 ≤ (simulatePhysiological b d e n).hrv ∧
      (simulatePhysiological b d e n).hrv ≤ 70) ∧
    (1 ≤ (simulatePhysiological b d e n).eda ∧
      (simulatePhysiological b d e n).eda ≤ 12) ∧
    (1/10 ≤ (simulatePhysiological b d e n).perclos ∧
      (simulatePhysiological b d e n).perclos ≤ 1/2) ∧
    (100 ≤ (simulatePhysiological b d e n).blink_duration ∧
      (simulatePhysiological b d e n).blink_duration ≤ 600) ∧
    (8 ≤ (simulatePhysiological b d e n).blink_rate ∧
      (simulatePhysiological b d e n).blink_rate ≤ 30) := by
  unfold simulatePhysiological
  refine ⟨?_, ?_, ?_, ?_, ?_, ?_⟩ <;> exact updateMetric_mem _ _ _ _ _ (by norm_num)

/-- C2, counterexample: with the as-built configuration (rest_threshold 0,
valid_alarm_threshold 20), starting from rest budget exactly 20 the alarm
never fires, the budget crosses below 20 during the first tick, and the
missed-alarm counter reaches 2 after two ticks — it increments once per tick
spent at or below 20, not exactly once per crossing. -/
theorem C2_counterexample :
    sC2.driver.rest_points = 20 ∧
    sC2.missed_alarms_count = 0 ∧
    tickAlarmTriggered sC2 noNoise anyDraw = false ∧
    tickAlarmTriggered (runTick sC2 noNoise anyDraw) noNoise anyDraw = false ∧
    (runTick sC2 noNoise anyDraw).missed_alarms_count = 1 ∧
    (runTick (runTick sC2 noNoise anyDraw) noNoise anyDraw).missed_alarms_count = 2 := by
  refine ⟨rfl, rfl, tickAlarmTriggered_false _ _ _, tickAlarmTriggered_false _ _ _, ?_, ?_⟩
  · rw [runTick_missed_eq]
    norm_num [sC2, initSimState, initDriverState]
  · rw [runTick_missed_eq, runTick_missed_eq]
    have hth : (runTick sC2 noNoise anyDraw).valid_alarm_threshold = 20 := rfl
    have hr2 : (runTick sC2 noNoise anyDraw).driver.rest_points = 393/20 := by
      show (postResetDriver sC2 noNoise anyDraw).rest_points = _
      have hloss : tickRestLoss sC2 = 7/20 := by
        norm_num [tickRestLoss, tickHours, sC2, initSimState, initDriverState,
          evaluateFatigue, timeCpd, weatherCpd, trafficCpd, roadCpd, rmin]
      have hnr : ¬ ((postLossDriver sC2 noNoise anyDraw).rest_points < sC2.rest_threshold) := by
        rw [postLossDriver_rest, hloss]
        norm_num [sC2, initSimState, initDriverState]
      rw [postResetDriver_no_reset sC2 noNoise anyDraw hnr, postLossDriver_rest, hloss]
      norm_num [sC2, initSimState, initDriverState]
    rw [hth, hr2]
    norm_num [sC2, initSimState, initDriverState]

/-- C2, amended: on every tick in which the rest budget is at or below the
ground-truth threshold at classification time, run_tick increments the
missed-alarm counter by exactly one (the alarm can never fire, since the
detector's alarm probability is constantly 0.1 below the 0.7 threshold), so
the counter grows once per tick spent at or below the threshold, not once per
crossing. -/
theorem C2_missed_per_tick (s : SimState) (n : Noise) (ed : EnvDraw)
    (h : s.driver.rest_points ≤ s.valid_alarm_threshold) :
    (runTick s n ed).missed_alarms_count = s.missed_alarms_count + 1 := by
  rw [runTick_missed_eq, if_pos h]

/-- C2, witness: C2_missed_per_tick at the concrete state sC2. -/
theorem C2_witness : (runTick sC2 noNoise anyDraw).missed_alarms_count = 1 := by
  rw [C2_missed_per_tick sC2 noNoise anyDraw
    (by norm_num [sC2, initSimState, initDriverState])]
  rfl

/-- C3, counterexample: a heart-rate reading of exactly 70 (the boundary
between Normal/Rested and Slightly Fatigued) is assigned bin 0, the
lower-severity bin, not bin 1; likewise perclos exactly 0.20 is assigned
bin 0. -/
theorem C3_counterexample :
    heartRateState 70 = 0 ∧ heartRateState 70 ≠ 1 ∧
    perclosState (1/5) = 0 ∧ perclosState (1/5) ≠ 1 := by
  norm_num [heartRateState, perclosState]

/-- C3, amended: at every internal bin boundary of every one of the six
signals, _get_biometric_states assigns the reading to the LOWER-severity of
the two adjacent bins (the comparisons make the less severe bin's interval
closed at the shared endpoint). -/
theorem C3_boundaries_low :
    (heartRateState 70 = 0 ∧ heartRateState 65 = 1 ∧ heartRateState 60 = 2) ∧
    (hrvState 45 = 0 ∧ hrvState 35 = 1 ∧ hrvState 25 = 2) ∧
    (edaState 6 = 0 ∧ edaState 4 = 1 ∧ edaState 2 = 2) ∧
    (perclosState (1/5) = 0 ∧ perclosState (3/10) = 1 ∧ perclosState (2/5) = 2) ∧
    (blinkDurationState 250 = 0 ∧ blinkDurationState 350 = 1 ∧ blinkDurationState 450 = 2) ∧
    (blinkRateState 14 = 0 ∧ blinkRateState 18 = 1 ∧ blinkRateState 22 = 2) := by
  norm_num [heartRateState, hrvState, edaState, perclosState, blinkDurationState,
    blinkRateState]

/-- C4, counterexample: on the very first tick of the as-built system the
amount stored in current_rest_loss (and deducted from the budget) is 0.35 =
environmental fatigue 0.14 × 2.5, whereas the biometric scoring output of the
evaluated state times the loss scale would be 0.19 × 2.5 = 0.475: run_tick's
rest_loss is NOT computed from the biometric score. -/
theorem C4_counterexample :
    (runTick s0 noNoise anyDraw).driver.current_rest_loss = 7/20 ∧
    (detectFatigue (postEnvDriver s0 noNoise anyDraw)).1 * (5/2) = 19/40 ∧
    (7/20 : ℚ) ≠ 19/40 := by
  refine ⟨?_, ?_, by norm_num⟩
  · rw [runTick_rest_loss_eq]
    norm_num [tickRestLoss, tickHours, s0, initSimState, initDriverState,
      evaluateFatigue, timeCpd, weatherCpd, trafficCpd, roadCpd, rmin]
  · show fatigueProbOf (postEnvDriver s0 noNoise anyDraw) * (5/2) = 19/40
    have hd : postEnvDriver s0 noNoise anyDraw = postPhysioDriver s0 noNoise := by
      unfold postEnvDriver
      rw [if_neg]
      show ¬ (s0.simulators_running = true)
      norm_num [s0, initSimState]
    rw [hd]
    have hhr : (postPhysioDriver s0 noNoise).heart_rate = 1209/16 := by
      norm_num [postPhysioDriver, simulatePhysiological, updateMetric, fatigueFactor,
        characteristicBiases, s0, initSimState, initDriverState, noNoise, rmin, rmax]
    have hhrv : (postPhysioDriver s0 noNoise).hrv = 805/16 := by
      norm_num [postPhysioDriver, simulatePhysiological, updateMetric, fatigueFactor,
        characteristicBiases, s0, initSimState, initDriverState, noNoise, rmin, rmax]
    have heda : (postPhysioDriver s0 noNoise).eda = 413/80 := by
      norm_num [postPhysioDriver, simulatePhysiological, updateMetric, fatigueFactor,
        characteristicBiases, s0, initSimState, initDriverState, noNoise, rmin, rmax]
    have hper : (postPhysioDriver s0 noNoise).perclos = 47/320 := by
      norm_num [postPhysioDriver, simulatePhysiological, updateMetric, fatigueFactor,
        characteristicBiases, s0, initSimState, initDriverState, noNoise, rmin, rmax]
    have hbd : (postPhysioDriver s0 noNoise).blink_duration = 785/4 := by
      norm_num [postPhysioDriver, simulatePhysiological, updateMetric, fatigueFactor,
        characteristicBiases, s0, initSimState, initDriverState, noNoise, rmin, rmax]
    have hbr : (postPhysioDriver s0 noNoise).blink_rate = 1173/80 := by
      norm_num [postPhysioDriver, simulatePhysiological, updateMetric, fatigueFactor,
        characteristicBiases, s0, initSimState, initDriverState, noNoise, rmin, rmax]
    have hb0 : getBiometricStates (postPhysioDriver s0 noNoise) 0 = 0 := by
      show heartRateState (postPhysioDriver s0 noNoise).heart_rate = 0
      norm_num [heartRateState, hhr]
    have hb1 : getBiometricStates (postPhysioDriver s0 noNoise) 1 = 0 := by
      show hrvState (postPhysioDriver s0 noNoise).hrv = 0
      norm_num [hrvState, hhrv]
    have hb2 : getBiometricStates (postPhysioDriver s0 noNoise) 2 = 1 := by
      show edaState (postPhysioDriver s0 noNoise).eda = 1
      norm_num [edaState, heda]
    have hb3 : getBiometricStates (postPhysioDriver s0 noNoise) 3 = 0 := by
      show perclosState (postPhysioDriver s0 noNoise).perclos = 0
      norm_num [perclosState, hper]
    have hb4 : getBiometricStates (postPhysioDriver s0 noNoise) 4 = 0 := by
      show blinkDurationState (postPhysioDriver s0 noNoise).blink_duration = 0
      norm_num [blinkDurationState, hbd]
    have hb5 : getBiometricStates (postPhysioDriver s0 noNoise) 5 = 1 := by
      show blinkRateState (postPhysioDriver s0 noNoise).blink_rate = 1
      norm_num [blinkRateState, hbr]
    unfold fatigueProbOf fatigueCpdEntry evidenceOf
    rw [hb0, hb1, hb2, hb3, hb4, hb5]
    norm_num [bitOf, stateWeights, rmin]

/-- C4, amended: on every tick the amount recorded in current_rest_loss (the
rest deduction) equals the ENVIRONMENTAL fatigue probability — the
FatigueEvaluator output on the pre-tick state over time-of-day, time since
rest, weather, traffic and road — times the loss scale 2.5; the biometric
scoring output of BiometricFatigueDetector plays no role in it. -/
theorem C4_rest_loss_source (s : SimState) (n : Noise) (ed : EnvDraw) :
    (runTick s n ed).driver.current_rest_loss =
      evaluateFatigue s.driver (tickHours s) * (5/2) := by
  rw [runTick_rest_loss_eq]
  rfl

/-- C5, counterexample: with rest_threshold = 0 (the as-built value) the
rest-reset branch IS taken: from a rest budget of 0.1 at tick 5, the tick's
deduction of 0.35 drives the budget negative, the branch fires, the budget is
reset to 100 and last_rest_tick is set to the current tick. -/
theorem C5_counterexample :
    sC5.rest_threshold = 0 ∧
    sC5.driver.rest_points = 1/10 ∧
    sC5.driver.last_rest_tick = 0 ∧
    (runTick sC5 noNoise anyDraw).driver.rest_points = 100 ∧
    (runTick sC5 noNoise anyDraw).driver.last_rest_tick = 5 := by
  have hloss : tickRestLoss sC5 = 7/20 := by
    norm_num [tickRestLoss, tickHours, sC5, initSimState, initDriverState,
      evaluateFatigue, timeCpd, weatherCpd, trafficCpd, roadCpd, rmin]
  have hc : (postLossDriver sC5 noNoise anyDraw).rest_points < sC5.rest_threshold := by
    rw [postLossDriver_rest, hloss]
    norm_num [sC5, initSimState, initDriverState]
  have hr := postResetDriver_reset sC5 noNoise anyDraw hc
  exact ⟨rfl, rfl, rfl, hr.1, hr.2⟩

/-- C5, amended: rest_threshold = 0 does not disable automatic rest; the
reset branch fires exactly when the post-deduction budget is strictly
negative, which every run eventually reaches because each tick deducts at
least 0.35 (the evaluator output is at least 0.14 in every environment). -/
theorem C5_reset_when_negative (s : SimState) (n : Noise) (ed : EnvDraw)
    (h0 : s.rest_threshold = 0)
    (hneg : s.driver.rest_points - tickRestLoss s < 0) :
    ((runTick s n ed).driver.rest_points = 100 ∧
      (runTick s n ed).driver.last_rest_tick = s.tick_count) ∧
    7/20 ≤ tickRestLoss s := by
  have hc : (postLossDriver s n ed).rest_points < s.rest_threshold := by
    rw [postLossDriver_rest, h0]
    exact hneg
  exact ⟨postResetDriver_reset s n ed hc, tickRestLoss_lb s⟩

/-- C5, witness: C5_reset_when_negative at the concrete state sC5. -/
theorem C5_witness :
    (runTick sC5 noNoise anyDraw).driver.rest_points = 100 ∧ 7/20 ≤ tickRestLoss sC5 := by
  have h := C5_reset_when_negative sC5 noNoise anyDraw rfl
    (by
      have hloss : tickRestLoss sC5 = 7/20 := by
        norm_num [tickRestLoss, tickHours, sC5, initSimState, initDriverState,
          evaluateFatigue, timeCpd, weatherCpd, trafficCpd, roadCpd, rmin]
      rw [hloss]
      norm_num [sC5, initSimState, initDriverState])
  exact ⟨h.1.1, h.2⟩

/-- C6: holding the other five severity bins fixed, moving one signal into a
strictly higher-severity bin never decreases the fatigue probability returned
by detect_fatigue (confirmed as stated; the inequality is not strict because
the detector collapses bins 1-3 to a single evidence value). -/
theorem C6_monotone (d1 d2 : DriverState) (i : Fin 6)
    (hothers : ∀ j : Fin 6, j ≠ i → getBiometricStates d1 j = getBiometricStates d2 j)
    (hsev : getBiometricStates d1 i < getBiometricStates d2 i) :
    (detectFatigue d1).1 ≤ (detectFatigue d2).1 := by
  show fatigueProbOf d1 ≤ fatigueProbOf d2
  unfold fatigueProbOf
  apply fatigueCpdEntry_mono
  intro j
  show bitOf (getBiometricStates d1 j) ≤ bitOf (getBiometricStates d2 j)
  by_cases hj : j = i
  · subst hj
    exact bitOf_mono _ _ (le_of_lt hsev)
  · rw [hothers j hj]

/-- C6, witness: C6_monotone comparing the baseline driver with the same
driver whose heart rate moved from bin 0 (75 bpm) to bin 1 (67 bpm). -/
theorem C6_witness : (detectFatigue (initDriverState .normal)).1 ≤ (detectFatigue dHr67).1 :=
  C6_monotone (initDriverState .normal) dHr67 0
    (by
      intro j hj
      fin_cases j
      · exact absurd rfl hj
      all_goals rfl)
    (by norm_num [getBiometricStates, heartRateState, initDriverState, dHr67])

/-- C7, counterexample: for the low_heart_rate profile, _reset_to_normal_state
sets heart_rate = 75 - 30 = 45, which discretizes to bin 3 (Very Fatigued),
not the minimum-severity bin, and the resulting fatigue probability is 0.145,
above the 0.1 floor. -/
theorem C7_counterexample :
    getBiometricStates (resetToNormalState (characteristicBiases .low_heart_rate)
      (initDriverState .normal)) 0 = 3 ∧
    (detectFatigue (resetToNormalState (characteristicBiases .low_heart_rate)
      (initDriverState .normal))).1 = 29/200 ∧
    (29/200 : ℚ) ≠ 1/10 := by
  have hhr : (resetToNormalState (characteristicBiases .low_heart_rate)
      (initDriverState .normal)).heart_rate = 45 := by
    norm_num [resetToNormalState, characteristicBiases, initDriverState]
  refine ⟨?_, ?_, by norm_num⟩
  · show heartRateState (resetToNormalState (characteristicBiases .low_heart_rate)
      (initDriverState .normal)).heart_rate = 3
    norm_num [heartRateState, hhr]
  · show fatigueProbOf (resetToNormalState (characteristicBiases .low_heart_rate)
      (initDriverState .normal)) = 29/200
    have hb0 : getBiometricStates (resetToNormalState (characteristicBiases .low_heart_rate)
        (initDriverState .normal)) 0 = 3 := by
      show heartRateState (resetToNormalState (characteristicBiases .low_heart_rate)
        (initDriverState .normal)).heart_rate = 3
      norm_num [heartRateState, hhr]
    have hb1 : getBiometricStates (resetToNormalState (characteristicBiases .low_heart_rate)
        (initDriverState .normal)) 1 = 0 := by
      show hrvState (resetToNormalState (characteristicBiases .low_heart_rate)
        (initDriverState .normal)).hrv = 0
      norm_num [hrvState, resetToNormalState, characteristicBiases, initDriverState]
    have hb2 : getBiometricStates (resetToNormalState (characteristicBiases .low_heart_rate)
        (initDriverState .normal)) 2 = 0 := by
      show edaState (resetToNormalState (characteristicBiases .low_heart_rate)
        (initDriverState .normal)).eda = 0
      norm_num [edaState, resetToNormalState, characteristicBiases, initDriverState]
    have hb3 : getBiometricStates (resetToNormalState (characteristicBiases .low_heart_rate)
        (initDriverState .normal)) 3 = 0 := by
      show perclosState (resetToNormalState (characteristicBiases .low_heart_rate)
        (initDriverState .normal)).perclos = 0
      norm_num [perclosState, resetToNormalState, characteristicBiases, initDriverState]
    have hb4 : getBiometricStates (resetToNormalState (characteristicBiases .low_heart_rate)
        (initDriverState .normal)) 4 = 0 := by
      show blinkDurationState (resetToNormalState (characteristicBiases .low_heart_rate)
        (initDriverState .normal)).blink_duration = 0
      norm_num [blinkDurationState, resetToNormalState, characteristicBiases, initDriverState]
    have hb5 : getBiometricStates (resetToNormalState (characteristicBiases .low_heart_rate)
        (initDriverState .normal)) 5 = 0 := by
      show blinkRateState (resetToNormalState (characteristicBiases .low_heart_rate)
        (initDriverState .normal)).blink_rate = 0
      norm_num [blinkRateState, resetToNormalState, characteristicBiases, initDriverState]
    unfold fatigueProbOf fatigueCpdEntry evidenceOf
    rw [hb0, hb1, hb2, hb3, hb4, hb5]
    norm_num [bitOf, stateWeights, rmin]

/-- C7, amended: immediately after _reset_to_normal_state, discretization
yields the minimum-severity bin for every signal and the fatigue probability
equals its global floor 0.1 for the normal and sweaty_palms profiles only;
the other profiles violate it (see the counterexample), and 0.1 is indeed the
detector's floor over all driver states. -/
theorem C7_baseline_floor :
    (∀ d : DriverState,
      (∀ j : Fin 6,
        getBiometricStates (resetToNormalState (characteristicBiases .normal) d) j = 0) ∧
      (detectFatigue (resetToNormalState (characteristicBiases .normal) d)).1 = 1/10) ∧
    (∀ d : DriverState,
      (∀ j : Fin 6,
        getBiometricStates (resetToNormalState (characteristicBiases .sweaty_palms) d) j = 0) ∧
      (detectFatigue (resetToNormalState (characteristicBiases .sweaty_palms) d)).1 = 1/10) ∧
    (∀ d : DriverState, 1/10 ≤ (detectFatigue d).1) := by
  refine ⟨fun d => ?_, fun d => ?_, fun d => fatigueProbOf_lb d⟩
  · have hb := reset_all_zero_of .normal d
      (by norm_num [heartRateState, characteristicBiases])
      (by norm_num [hrvState, characteristicBiases])
      (by norm_num [edaState, characteristicBiases])
      (by norm_num [perclosState, characteristicBiases])
      (by norm_num [blinkDurationState, characteristicBiases])
      (by norm_num [blinkRateState, characteristicBiases])
    exact ⟨hb, fatigueProb_of_all_zero _ hb⟩
  · have hb := reset_all_zero_of .sweaty_palms d
      (by norm_num [heartRateState, characteristicBiases])
      (by norm_num [hrvState, characteristicBiases])
      (by norm_num [edaState, characteristicBiases])
      (by norm_num [perclosState, characteristicBiases])
      (by norm_num [blinkDurationState, characteristicBiases])
      (by norm_num [blinkRateState, characteristicBiases])
    exact ⟨hb, fatigueProb_of_all_zero _ hb⟩

/-- C8, counterexample: at energy_level = 100 the fatigue factor computed by
the source is (100 - 25 - 100)/100 = -0.25, while the spec's clamp01 value is
0: the factor used is not clamped to [0,1] and is negative for high energy
levels. -/
theorem C8_counterexample :
    fatigueFactor 100 = -(1/4) ∧
    specClampedFatigueFactor 100 = 0 ∧
    fatigueFactor 100 ≠ specClampedFatigueFactor 100 := by
  norm_num [fatigueFactor, specClampedFatigueFactor, rmin, rmax]

/-- C8, amended: the fatigue factor used by simulate_physiological is the
UNCLAMPED quotient (100 - 25 - energy_level)/100 = (75 - energy_level)/100:
it is strictly negative whenever energy_level exceeds 75 (so interpolation
targets overshoot past the rested value), and it is bounded below by -0.25
for energy levels up to 100. -/
theorem C8_factor_unclamped (e : ℚ) :
    fatigueFactor e = (75 - e) / 100 ∧
    (75 < e → fatigueFactor e < 0) ∧
    (e ≤ 100 → -(1/4) ≤ fatigueFactor e) := by
  unfold fatigueFactor
  refine ⟨by ring, fun h => ?_, fun h => ?_⟩
  · apply div_neg_of_neg_of_pos <;> linarith
  · have h3 : (100 - 25 - e) / 100 = 3/4 - e * (1/100) := by ring
    rw [h3]
    linarith

/-- C8, witness: C8_factor_unclamped at energy_level = 100. -/
theorem C8_witness : fatigueFactor 100 < 0 ∧ -(1/4) ≤ fatigueFactor 100 :=
  ⟨(C8_factor_unclamped 100).2.1 (by norm_num),
   (C8_factor_unclamped 100).2.2 (by norm_num)⟩

/-- C9, amended: run_tick mutates DriverState in place, step by step, with no
next-state buffer: if execution aborts right after simulate_physiological
(e.g. on an exception inside detect_fatigue), the committed state carries the
fully updated physiological fields while the counters, histories and tick
count are still their pre-tick values — the tick's effects are partial, not
all-or-nothing. -/
theorem C9_partial_commit (s : SimState) (n : Noise) :
    (runTickAfterPhysio s n).driver = postPhysioDriver s n ∧
    (runTickAfterPhysio s n).missed_alarms_count = s.missed_alarms_count ∧
    (runTickAfterPhysio s n).valid_alarms_count = s.valid_alarms_count ∧
    (runTickAfterPhysio s n).total_alarms_count = s.total_alarms_count ∧
    (runTickAfterPhysio s n).tick_count = s.tick_count ∧
    (runTickAfterPhysio s n).rest_points_history = s.rest_points_history ∧
    (runTickAfterPhysio s n).alarm_history = s.alarm_history :=
  ⟨rfl, rfl, rfl, rfl, rfl, rfl, rfl⟩

/-- C9, counterexample: aborting the as-built system's first tick right after
the physiological step leaves a state that differs from the pre-tick state
(heart_rate already moved from 75 to 75.5625) while the tick's remaining
effects are absent — refuting the claim that an exception during a tick
leaves DriverState exactly as it was at the start of the tick. -/
theorem C9_counterexample :
    (runTickAfterPhysio s0 noNoise).driver.heart_rate ≠ s0.driver.heart_rate ∧
    (runTickAfterPhysio s0 noNoise).driver.heart_rate = 1209/16 ∧
    s0.driver.heart_rate = 75 ∧
    (runTickAfterPhysio s0 noNoise).missed_alarms_count = s0.missed_alarms_count ∧
    (runTickAfterPhysio s0 noNoise).tick_count = s0.tick_count := by
  have hhr : (runTickAfterPhysio s0 noNoise).driver.heart_rate = 1209/16 := by
    show (postPhysioDriver s0 noNoise).heart_rate = 1209/16
    norm_num [postPhysioDriver, simulatePhysiological, updateMetric, fatigueFactor,
      characteristicBiases, s0, initSimState, initDriverState, noNoise, rmin, rmax]
  have h75 : s0.driver.heart_rate = 75 := rfl
  refine ⟨?_, hhr, h75, rfl, rfl⟩
  rw [hhr, h75]
  norm_num

/-- C10: detect_fatigue is indistinguishable between any two driver states
whose six severity bins agree on which signals are in the minimum-severity
bin: the evidence construction collapses each bin index to the indicator
`bin index > 0.5`, so bins 1, 2 and 3 produce identical fatigue probability,
alarm probability and alarm decision (confirmed). -/
theorem C10_collapse (d1 d2 : DriverState)
    (h : ∀ j : Fin 6, (getBiometricStates d1 j = 0 ↔ getBiometricStates d2 j = 0)) :
    detectFatigue d1 = detectFatigue d2 := by
  have he : evidenceOf (getBiometricStates d1) = evidenceOf (getBiometricStates d2) := by
    funext j
    show bitOf (getBiometricStates d1 j) = bitOf (getBiometricStates d2 j)
    rw [bitOf_eq, bitOf_eq]
    by_cases h0 : getBiometricStates d1 j = 0
    · rw [if_pos h0, if_pos ((h j).mp h0)]
    · rw [if_neg h0, if_neg (fun hc => h0 ((h j).mpr hc))]
  unfold detectFatigue alarmProbOf fatigueEvidenceOf fatigueProbOf
  rw [he]

/-- C10, witness: C10_collapse on two drivers whose heart rates sit in bins 1
and 2 respectively (67 vs 62 bpm), all else equal: the outputs coincide. -/
theorem C10_witness : detectFatigue dHr67 = detectFatigue dHr62 :=
  C10_collapse dHr67 dHr62
    (by
      intro j
      fin_cases j <;>
        norm_num [getBiometricStates, heartRateState, hrvState, edaState,
          perclosState, blinkDurationState, blinkRateState, dHr67, dHr62,
          initDriverState, Fin.ext_iff])

end FatigueSim
